import Mathlib

/-!
Shallow embedding of the pyglobalcache protocol client
(`src/pyglobalcache/__init__.py`).

Python strings are modelled as `List Char` (`Str`), Python ints as `Nat`
(all quantities in play — modules, ports, sequence numbers, repeat counts,
hex token values — are non-negative), and Python exceptions as the error
side of `Except PyErr _`.  The injected line transport
(`GlobalCache._sendstring`, which opens a socket, sends one line and
returns the `rstrip`-ped answer) is modelled as a function
`Str → Option Str`; `none` models a transport-level failure
(socket error / timeout), and the `Str` delivered by `some` is the already
stripped answer text that `_sendstring` returns to its callers.

The one floating-point expression in the source,
`int(1000000.0 / (0.241246 * fcode))` (line 157), is embedded as the exact
truncated rational `10^12 / (241246 * fcode)` in `Nat` division; at the
inputs exercised by the claims the quotient is far from an integer
boundary (distance > 0.13), many orders of magnitude beyond IEEE-double
rounding error, so the exact model and the float computation agree there.
A zero `fcode` raises `ZeroDivisionError` in Python and is modelled as
`PyErr.zeroDivisionError`.
-/

/-- Python strings as lists of characters. -/
abbrev Str := List Char

/-- Python exception kinds that the embedded code can raise.
`keyError` is the builtin `KeyError` from a failed `dict` lookup;
`valueError` is the builtin `ValueError` from `int(x, 16)` on a
non-hexadecimal string; `indexError` is the builtin `IndexError` from
`list.pop(0)` on an empty list; `zeroDivisionError` is the builtin
`ZeroDivisionError`; `invalidPronto` is the repository's own
`GCIRDevice.InvalidProntoException` (the spec calls this error kind
`UnsupportedProntoType`); `commandNotFound` is the repository's own
`GCIRDevice.CommandNotFoundException`, declared at lines 172-174 of the
source; `transportError` stands for the socket-level `IOError`/timeout
raised inside `_sendstring`. -/
inductive PyErr where
  | keyError
  | valueError
  | indexError
  | zeroDivisionError
  | invalidPronto
  | commandNotFound
  | transportError
deriving DecidableEq

/-- The decimal digit characters produced by Python `str` on a value
`0 ≤ d ≤ 9` (only ever applied to such values). -/
def digitChar (d : Nat) : Char :=
  if d = 0 then '0' else if d = 1 then '1' else if d = 2 then '2'
  else if d = 3 then '3' else if d = 4 then '4' else if d = 5 then '5'
  else if d = 6 then '6' else if d = 7 then '7' else if d = 8 then '8'
  else '9'

/-- Fuel-driven decimal rendering; with fuel above the digit count this is
Python's `str` on a non-negative int. -/
def natReprRec (fuel n : Nat) : Str :=
  match fuel with
  | 0 => []
  | f + 1 => if n < 10 then [digitChar n] else natReprRec f (n / 10) ++ [digitChar (n % 10)]

/-- Python `str(n)` for a non-negative int `n` (fuel `n + 1` always
exceeds the number of decimal digits of `n`). -/
def natRepr (n : Nat) : Str := natReprRec (n + 1) n

/-- The constant `SENDIR = 'sendir'` (source line 39). -/
def SENDIR : Str := ['s', 'e', 'n', 'd', 'i', 'r']

/-- The constant `COMPLETEIR = 'completeir'` (source line 36). -/
def COMPLETEIR : Str := ['c', 'o', 'm', 'p', 'l', 'e', 't', 'e', 'i', 'r']

/-- The constant `SETSTATE = 'setstate'` (source line 40). -/
def SETSTATE : Str := ['s', 'e', 't', 's', 't', 'a', 't', 'e']

/-- The constant `GETSTATE = 'getstate'` (source line 41). -/
def GETSTATE : Str := ['g', 'e', 't', 's', 't', 'a', 't', 'e']

/-- The constant `GETSERIAL = 'get_SERIAL'` (source line 38). -/
def GETSERIAL : Str := ['g', 'e', 't', '_', 'S', 'E', 'R', 'I', 'A', 'L']

/-- The constant `GETVERSION = 'getversion'` (source line 37). -/
def GETVERSION : Str := ['g', 'e', 't', 'v', 'e', 'r', 's', 'i', 'o', 'n']

/-- `GlobalCache._connector(module, port)`: the string
`str(module) + ':' + str(port)` (source lines 89-90). -/
def connector (module port : Nat) : Str :=
  natRepr module ++ ':' :: natRepr port

/-- The decoded IR command object `GCIRDevice.Command`: its two instance
fields `_frequency` (source line 157) and `_datastring`
(source lines 160-162). -/
structure Command where
  frequency : Nat
  datastring : Str
deriving DecidableEq

/-- `GlobalCache._ir_string(module, port, command, count)` evaluated at a
session whose `_sequence_no` equals `sequence_no` (source lines 92-93):
`'sendir,' + connector + ',' + str(seq) + ',' + str(freq) + ',' + str(count)
+ command._datastring`. -/
def ir_string (sequence_no module port : Nat) (command : Command) (count : Nat) : Str :=
  SENDIR ++ ',' :: connector module port ++ ',' :: natRepr sequence_no
    ++ ',' :: natRepr command.frequency ++ ',' :: natRepr count ++ command.datastring

/-- Python `s.split(',')`: separator split keeping empty fields
(`''.split(',') == ['']`). -/
def splitComma : Str → List Str
  | [] => [[]]
  | c :: cs =>
    if c = ',' then [] :: splitComma cs
    else
      match splitComma cs with
      | [] => [[c]]
      | t :: ts => (c :: t) :: ts

/-- The expected reply computed inside `GlobalCache._sendir`
(source lines 73-74): `COMPLETEIR + ',' + list[1] + ',' + list[2]` where
`list = commandstring.split(',')`.  Python indexing `list[1]`/`list[2]`
raises on a too-short list; the built requests this is applied to always
split into at least six fields, where `getD` and Python indexing agree. -/
def sendirExpected (commandstring : Str) : Str :=
  COMPLETEIR ++ ',' :: (splitComma commandstring).getD 1 []
    ++ ',' :: (splitComma commandstring).getD 2 []

/-- The reply comparison of `GlobalCache._sendir` (source line 75):
`expected == answ`.  The spec names this pure function
`parseSendIrReply(original, reply)`. -/
def parseSendIrReply (commandstring answ : Str) : Bool :=
  sendirExpected commandstring == answ

/-- `GlobalCache._relay_set_string(module, port, onoff)`
(source lines 106-107). -/
def relay_set_string (module port : Nat) (onoff : Bool) : Str :=
  SETSTATE ++ ',' :: connector module port ++ ',' :: (if onoff then ['1'] else ['0'])

/-- `GlobalCache._relay_get_string(module, port)` (source lines 109-110). -/
def relay_get_string (module port : Nat) : Str :=
  GETSTATE ++ ',' :: connector module port

/-- The reply comparison of `GlobalCache.setrelay` (source line 98):
`answer == cmdstring[3:]`.  Python's slice `[3:]` of a list of characters
is `List.drop 3`.  The spec names this pure function
`parseSetRelayReply(cmdstring, reply)`. -/
def parseSetRelayReply (cmdstring answer : Str) : Bool :=
  answer == cmdstring.drop 3

/-- Python slice `s[a:b]` for non-negative bounds. -/
def pySlice (s : Str) (a b : Nat) : Str := (s.take b).drop a

/-- The reply check of `GlobalCache.getrelay` (source lines 103-104):
`value = answer[10:11]; return value == '1'`.  The spec names this pure
function `parseGetRelayReply(reply)`. -/
def parseGetRelayReply (answer : Str) : Bool :=
  pySlice answer 10 11 == ['1']

/-- Hexadecimal value of a single character, the digits accepted by
Python `int(x, 16)`. -/
def hexDigit? (c : Char) : Option Nat :=
  if '0' ≤ c ∧ c ≤ '9' then some (c.toNat - 48)
  else if 'a' ≤ c ∧ c ≤ 'f' then some (c.toNat - 87)
  else if 'A' ≤ c ∧ c ≤ 'F' then some (c.toNat - 55)
  else none

/-- Accumulating hexadecimal evaluation of a digit string. -/
def hexAcc (acc : Nat) : Str → Option Nat
  | [] => some acc
  | c :: cs =>
    match hexDigit? c with
    | some d => hexAcc (16 * acc + d) cs
    | none => none

/-- Python `int(x, 16)` on a token: the value of a non-empty string of
hexadecimal digits, `ValueError` otherwise.  (The optional sign,
`0x` prefix and underscores that Python also tolerates are not modelled;
no Pronto token in play uses them.) -/
def hexInt : Str → Except PyErr Nat
  | [] => Except.error PyErr.valueError
  | s => match hexAcc 0 s with
    | some v => Except.ok v
    | none => Except.error PyErr.valueError

/-- The quantities computed by `GCIRDevice.Command.__init__`
(source lines 151-162) before the data string is assembled. -/
structure DecodeOut where
  frequency : Nat
  no_intro_pair : Nat
  no_reps_pair : Nat
  durations : List Nat
deriving DecidableEq

/-- `GCIRDevice.Command.__init__` on the token list
`prontohex.split()` (source lines 151-162), faithfully ordered:
`_pronto_int` pops and hex-parses the head (raising `IndexError` on an
empty list and `ValueError` on a bad token); a non-zero type token raises
`InvalidProntoException` before anything further is consumed; the
frequency `int(1000000.0 / (0.241246 * fcode))` is computed right after
`fcode` (raising `ZeroDivisionError` when `fcode` is zero), embedded as
the exact truncation `10^12 / (241246 * fcode)`; the two pair-count
header tokens are popped next; every remaining token is hex-parsed by the
duration loop, which stops at the first malformed token. -/
def prontoDecodeToks : List Str → Except PyErr DecodeOut
  | [] => Except.error PyErr.indexError
  | t0 :: r1 =>
    match hexInt t0 with
    | Except.error e => Except.error e
    | Except.ok ty =>
      if ty ≠ 0 then Except.error PyErr.invalidPronto
      else
        match r1 with
        | [] => Except.error PyErr.indexError
        | t1 :: r2 =>
          match hexInt t1 with
          | Except.error e => Except.error e
          | Except.ok fcode =>
            if fcode = 0 then Except.error PyErr.zeroDivisionError
            else
              match r2 with
              | [] => Except.error PyErr.indexError
              | t2 :: r3 =>
                match hexInt t2 with
                | Except.error e => Except.error e
                | Except.ok no_intro_pair =>
                  match r3 with
                  | [] => Except.error PyErr.indexError
                  | t3 :: rest =>
                    match hexInt t3 with
                    | Except.error e => Except.error e
                    | Except.ok no_reps_pair =>
                      match rest.mapM hexInt with
                      | Except.error e => Except.error e
                      | Except.ok durations =>
                        Except.ok ⟨1000000000000 / (241246 * fcode),
                          no_intro_pair, no_reps_pair, durations⟩

/-- The `_datastring` assembled at source lines 160-162:
`',' + str(2 * no_intro_pair + 1)` followed by `',' + str(value)` for each
duration value. -/
def datastringOf (d : DecodeOut) : Str :=
  ',' :: natRepr (2 * d.no_intro_pair + 1)
    ++ (d.durations.map (fun x => ',' :: natRepr x)).flatten

/-- `GCIRDevice.Command(prontohex)` on the already split token list: the
constructed object, or the exception `__init__` raises. -/
def commandInitToks (toks : List Str) : Except PyErr Command :=
  (prontoDecodeToks toks).map (fun d => ⟨d.frequency, datastringOf d⟩)

/-- The session state of a `GlobalCache` object: `_sequence_no`
(source line 49) and the `_version` string cached by `__init__`
(source line 52). -/
structure Session where
  sequence_no : Nat
  version : Str
deriving DecidableEq

/-- `GlobalCache.__init__` (source lines 46-52): `_sequence_no` starts at
1, then a `getversion` exchange runs; a transport failure there means no
session object is ever produced. -/
def sessionInit (transport : Str → Option Str) : Option Session :=
  (transport GETVERSION).map (fun v => ⟨1, v⟩)

/-- One observable step of the session: a request/reply exchange on the
transport (`reply = none` models a transport failure), or the
`time.sleep` suspension inside `pulse`. -/
inductive Event where
  | exchange (request : Str) (reply : Option Str)
  | sleep (duration : Nat)
deriving DecidableEq

/-- `GlobalCache.sendir`/`_sendir` (source lines 66-75): the request is
built with the current `_sequence_no`, the counter is incremented
(line 71) before `_sendstring` runs (line 72), so the increment survives
a transport failure; the reply is then compared against the expected
`completeir` echo. -/
def sendirRun (transport : Str → Option Str) (s : Session)
    (module port : Nat) (command : Command) (count : Nat) :
    Session × List Event × Except PyErr Bool :=
  let cmdstring := ir_string s.sequence_no module port command count
  let s2 : Session := { s with sequence_no := s.sequence_no + 1 }
  match transport cmdstring with
  | none => (s2, [Event.exchange cmdstring none], Except.error PyErr.transportError)
  | some answ =>
    (s2, [Event.exchange cmdstring (some answ)], Except.ok (parseSendIrReply cmdstring answ))

/-- `GlobalCache.setrelay` (source lines 95-98). -/
def setrelayRun (transport : Str → Option Str) (module port : Nat) (onoff : Bool) :
    List Event × Except PyErr Bool :=
  let cmdstring := relay_set_string module port onoff
  match transport cmdstring with
  | none => ([Event.exchange cmdstring none], Except.error PyErr.transportError)
  | some answer =>
    ([Event.exchange cmdstring (some answer)], Except.ok (parseSetRelayReply cmdstring answer))

/-- `GlobalCache.getrelay` (source lines 100-104). -/
def getrelayRun (transport : Str → Option Str) (module port : Nat) :
    List Event × Except PyErr Bool :=
  let cmdstring := relay_get_string module port
  match transport cmdstring with
  | none => ([Event.exchange cmdstring none], Except.error PyErr.transportError)
  | some answer =>
    ([Event.exchange cmdstring (some answer)], Except.ok (parseGetRelayReply answer))

/-- `GlobalCache.getserial` (source lines 112-114). -/
def getserialRun (transport : Str → Option Str) (module port : Nat) :
    List Event × Except PyErr Str :=
  let cmdstring := GETSERIAL ++ ',' :: connector module port
  match transport cmdstring with
  | none => ([Event.exchange cmdstring none], Except.error PyErr.transportError)
  | some answer => ([Event.exchange cmdstring (some answer)], Except.ok answer)

/-- `GlobalCache.getversion` (source lines 63-64): returns the cached
`_version`, no transport exchange. -/
def getversionRun (s : Session) : List Event × Except PyErr Str :=
  ([], Except.ok s.version)

/-- The result of one session operation. -/
inductive OpResult where
  | asBool (b : Bool)
  | asStr (s : Str)
deriving DecidableEq

/-- The operations a session exposes. -/
inductive Op where
  | sendirOp (module port : Nat) (command : Command) (count : Nat)
  | getversionOp
  | getserialOp (module port : Nat)
  | setrelayOp (module port : Nat) (onoff : Bool)
  | getrelayOp (module port : Nat)

/-- Dispatch one operation against the session, returning the new session
state, the observable events, and the outcome. -/
def runOp (transport : Str → Option Str) (s : Session) :
    Op → Session × List Event × Except PyErr OpResult
  | Op.sendirOp m p cmd count =>
    let r := sendirRun transport s m p cmd count
    (r.1, r.2.1, r.2.2.map OpResult.asBool)
  | Op.getversionOp =>
    let r := getversionRun s
    (s, r.1, r.2.map OpResult.asStr)
  | Op.getserialOp m p =>
    let r := getserialRun transport m p
    (s, r.1, r.2.map OpResult.asStr)
  | Op.setrelayOp m p onoff =>
    let r := setrelayRun transport m p onoff
    (s, r.1, r.2.map OpResult.asBool)
  | Op.getrelayOp m p =>
    let r := getrelayRun transport m p
    (s, r.1, r.2.map OpResult.asBool)

/-- The session state after a sequence of operations. -/
def runOps (transport : Str → Option Str) (s : Session) (ops : List Op) : Session :=
  ops.foldl (fun st op => (runOp transport st op).1) s

/-- Discriminates the IR-send operation. -/
def isSendir : Op → Bool
  | Op.sendirOp _ _ _ _ => true
  | _ => false

/-- `GCRelayDevice.pulse` (source lines 198-203): `turn_on`; on a `False`
status return `False` at once; otherwise `time.sleep(pulselength)` and
return the `turn_off` result.  A transport exception from either exchange
propagates. -/
def pulseRun (transport : Str → Option Str) (module port pulselength : Nat) :
    List Event × Except PyErr Bool :=
  match setrelayRun transport module port true with
  | (ev, Except.ok true) =>
    let r := setrelayRun transport module port false
    (ev ++ Event.sleep pulselength :: r.1, r.2)
  | (ev, Except.ok false) => (ev, Except.ok false)
  | (ev, Except.error e) => (ev, Except.error e)

/-- Python `dict` lookup `commands[command_name]` over an association
list; `none` is the missing key that makes the lookup raise `KeyError`. -/
def lookupCmd (commands : List (Str × Command)) (name : Str) : Option Command :=
  match commands with
  | [] => none
  | (k, v) :: rest => if k == name then some v else lookupCmd rest name

/-- `GCIRDevice.send(command_name, count)` (source lines 130-132):
`command = self._commands[command_name]` — a missing key raises the
builtin `KeyError` before any request is built or sent — then delegation
to `GlobalCache.sendir`. -/
def GCIRDevice_send (transport : Str → Option Str) (s : Session)
    (commands : List (Str × Command)) (module port : Nat) (name : Str) (count : Nat) :
    Session × List Event × Except PyErr Bool :=
  match lookupCmd commands name with
  | none => (s, [], Except.error PyErr.keyError)
  | some command => sendirRun transport s module port command count

/-- Modelled from the spec: the claim-side rounding
`round(1000000 / (0.241246 × fcode))` in exact arithmetic —
`⌊a / b + 1 / 2⌋ = (2 a + b) / (2 b)` in natural division.  Written for
comparison with the `frequency` the source actually computes. -/
def specRoundHalfUp (a b : Nat) : Nat := (2 * a + b) / (2 * b)

/-- Modelled from the spec: the carrier frequency claim C2 prescribes,
`round(1000000 / (0.241246 × fcode)) = round(10^12 / (241246 × fcode))`. -/
def specRoundFreq (fcode : Nat) : Nat := specRoundHalfUp 1000000000000 (241246 * fcode)

/-- Modelled from the spec: the duration sequence claim C3 prescribes —
every token from position 1 onward (the stream minus only the type
token), hex-parsed.  Written for comparison with the durations the source
actually collects. -/
def specClaimDurations (toks : List Str) : Except PyErr (List Nat) :=
  (toks.drop 1).mapM hexInt

/-- The Pronto token stream `0000 006D 0022 0002` from claim C2. -/
def c2toks : List Str :=
  [['0', '0', '0', '0'], ['0', '0', '6', 'D'], ['0', '0', '2', '2'], ['0', '0', '0', '2']]

/-- A Pronto token stream `0000 006D 0001 0000 000A` separating the two
readings of claim C3: one intro pair and a single duration token. -/
def c3toks : List Str :=
  [['0', '0', '0', '0'], ['0', '0', '6', 'D'], ['0', '0', '0', '1'],
   ['0', '0', '0', '0'], ['0', '0', '0', 'A']]

/-- A transport that answers every request with the single letter `V`. -/
def tConst : Str → Option Str := fun _ => some ['V']

/-- A transport whose answers never match any expected echo. -/
def tFail : Str → Option Str := fun _ => some ['x']

/-- An operation sequence exercising every operation kind, with two
IR sends. -/
def opsW : List Op :=
  [Op.sendirOp 1 1 ⟨38028, []⟩ 1, Op.setrelayOp 3 1 true, Op.getrelayOp 3 1,
   Op.getversionOp, Op.getserialOp 1 1, Op.sendirOp 1 1 ⟨38028, []⟩ 2]

theorem digitChar_ne_comma (d : Nat) : digitChar d ≠ ',' := by
  unfold digitChar
  split_ifs <;> decide

theorem natReprRec_comma_free (fuel : Nat) : ∀ n : Nat, ',' ∉ natReprRec fuel n := by
  induction fuel with
  | zero => intro n; simp [natReprRec]
  | succ f ih =>
    intro n
    rw [natReprRec]
    split
    · intro h
      rw [List.mem_singleton] at h
      exact digitChar_ne_comma n h.symm
    · intro h
      rw [List.mem_append] at h
      rcases h with h | h
      · exact ih (n / 10) h
      · rw [List.mem_singleton] at h
        exact digitChar_ne_comma (n % 10) h.symm

theorem natRepr_comma_free (n : Nat) : ',' ∉ natRepr n :=
  natReprRec_comma_free (n + 1) n

theorem connector_comma_free (m p : Nat) : ',' ∉ connector m p := by
  unfold connector
  intro h
  rw [List.mem_append] at h
  rcases h with h | h
  · exact natRepr_comma_free m h
  · rw [List.mem_cons] at h
    rcases h with h | h
    · exact absurd h (by decide)
    · exact natRepr_comma_free p h

theorem splitComma_append (a rest : Str) (h : ',' ∉ a) :
    splitComma (a ++ ',' :: rest) = a :: splitComma rest := by
  induction a with
  | nil =>
    rw [List.nil_append]
    simp [splitComma]
  | cons c cs ih =>
    have hc : ¬(c = ',') := by
      intro hcc
      exact h (by rw [hcc]; exact List.mem_cons_self _ _)
    have hcs : ',' ∉ cs := fun hm => h (List.mem_cons_of_mem c hm)
    rw [List.cons_append]
    simp only [splitComma]
    rw [if_neg hc, ih hcs]

theorem ir_string_assoc (seq m p count : Nat) (cmd : Command) :
    ir_string seq m p cmd count =
      SENDIR ++ ',' :: (connector m p ++ ',' :: (natRepr seq ++ ',' ::
        (natRepr cmd.frequency ++ ',' :: natRepr count ++ cmd.datastring))) := by
  simp [ir_string, List.append_assoc]

theorem splitComma_ir (seq m p count : Nat) (cmd : Command) :
    splitComma (ir_string seq m p cmd count) =
      SENDIR :: connector m p :: natRepr seq ::
        splitComma (natRepr cmd.frequency ++ ',' :: natRepr count ++ cmd.datastring) := by
  rw [ir_string_assoc]
  rw [splitComma_append SENDIR _ (by decide)]
  rw [splitComma_append (connector m p) _ (connector_comma_free m p)]
  rw [splitComma_append (natRepr seq) _ (natRepr_comma_free seq)]

theorem sendirExpected_ir (seq m p count : Nat) (cmd : Command) :
    sendirExpected (ir_string seq m p cmd count) =
      COMPLETEIR ++ ',' :: connector m p ++ ',' :: natRepr seq := by
  unfold sendirExpected
  rw [splitComma_ir]
  simp [List.getD_cons_succ, List.getD_cons_zero]

/-- Claim C1: for every address (module, port), sequence number, decoded
signal and repeat count, building a send-IR request with `ir_string` and
then parsing a reply with `parseSendIrReply` succeeds exactly when the
reply equals `completeir,` followed by the `module:port` token and the
sequence token of the request (the fields at positions 1 and 2 of its
comma split); every other reply yields `false`. -/
theorem sendir_build_parse_iff (m p seq count : Nat) (cmd : Command) (reply : Str) :
    parseSendIrReply (ir_string seq m p cmd count) reply = true ↔
    reply = COMPLETEIR ++ ',' :: connector m p ++ ',' :: natRepr seq := by
  unfold parseSendIrReply
  rw [sendirExpected_ir, beq_iff_eq]
  exact eq_comm

/-- Claim C4 (amended): the set-relay exchange reports success exactly
when the reply equals the built command with its first three characters
stripped — `state,{m}:{p},{0|1}` — not everything after the `setstate,`
operation prefix. -/
theorem setrelay_parse_iff (m p : Nat) (onoff : Bool) (reply : Str) :
    parseSetRelayReply (relay_set_string m p onoff) reply = true ↔
    reply = ['s', 't', 'a', 't', 'e'] ++ ',' :: connector m p
      ++ ',' :: (if onoff then ['1'] else ['0']) := by
  unfold parseSetRelayReply relay_set_string SETSTATE
  rw [beq_iff_eq]
  simp [List.drop]

/-- Claim C4 counterexample: for module 3, port 1, `onoff = true`, the
claimed success reply `3:1,1` (everything after the `setstate,` prefix,
the wire-table form) is rejected by the code, while `state,3:1,1` (the
command minus its first three characters) is accepted. -/
theorem setrelay_claim_counterexample :
    parseSetRelayReply (relay_set_string 3 1 true) (connector 3 1 ++ [',', '1']) = false ∧
    parseSetRelayReply (relay_set_string 3 1 true)
      (['s', 't', 'a', 't', 'e'] ++ ',' :: connector 3 1 ++ [',', '1']) = true := by
  exact ⟨rfl, rfl⟩

theorem parseGetRelayReply_char (answer : Str) :
    parseGetRelayReply answer = true ↔ answer[10]? = some '1' := by
  unfold parseGetRelayReply pySlice
  rw [← List.take_drop 10 1 answer]
  rw [show answer[10]? = (answer.drop 10)[0]? from by rw [List.getElem?_drop]]
  cases h : answer.drop 10 with
  | nil => simp
  | cons c t => simp [List.take]

/-- Claim C5: for every reply string, the get-relay-state parse returns
true exactly when the character at fixed offset 10 of the reply is `1`; a
reply with any other character there — or with no character there at
all — yields false. -/
theorem getrelay_parse_offset10 (answer : Str) :
    parseGetRelayReply answer = true ↔ answer[10]? = some '1' :=
  parseGetRelayReply_char answer

/-- Claim C10: for every device reply of length at most 10 (including the
empty string), the get-relay-state operation completes and returns false:
the slice `answer[10:11]` is total and empty, never an out-of-range
failure. -/
theorem getrelay_short_reply (t : Str → Option Str) (m p : Nat) (answer : Str)
    (ht : t (relay_get_string m p) = some answer) (h : answer.length ≤ 10) :
    getrelayRun t m p =
      ([Event.exchange (relay_get_string m p) (some answer)], Except.ok false) := by
  have hp : parseGetRelayReply answer = false := by
    cases hb : parseGetRelayReply answer
    · rfl
    · exfalso
      have := (parseGetRelayReply_char answer).mp hb
      have hlt : 10 < answer.length := by
        rcases List.getElem?_eq_some.mp this with ⟨hw, _⟩
        exact hw
      omega
  simp [getrelayRun, ht, hp]

/-- Claim C10 witness: a transport answering the one-character reply `V`
makes the get-relay-state operation return false. -/
theorem getrelay_short_reply_witness :
    (['V'] : Str).length ≤ 10 ∧
    getrelayRun tConst 1 1 =
      ([Event.exchange (relay_get_string 1 1) (some ['V'])], Except.ok false) :=
  ⟨by decide, getrelay_short_reply tConst 1 1 ['V'] rfl (by decide)⟩

theorem prontoDecodeToks_ok_shape (toks : List Str) (d : DecodeOut)
    (h : prontoDecodeToks toks = Except.ok d) :
    ∃ t0 t1 t2 t3 rest, toks = t0 :: t1 :: t2 :: t3 :: rest ∧
      rest.mapM hexInt = Except.ok d.durations := by
  cases toks with
  | nil => simp [prontoDecodeToks] at h
  | cons t0 r1 =>
    cases h0 : hexInt t0 with
    | error e => simp [prontoDecodeToks, h0] at h
    | ok ty =>
      by_cases hty : ty = 0
      · subst hty
        cases r1 with
        | nil => simp [prontoDecodeToks, h0] at h
        | cons t1 r2 =>
          cases h1 : hexInt t1 with
          | error e => simp [prontoDecodeToks, h0, h1] at h
          | ok fcode =>
            by_cases hfc : fcode = 0
            · simp [prontoDecodeToks, h0, h1, hfc] at h
            · cases r2 with
              | nil => simp [prontoDecodeToks, h0, h1, hfc] at h
              | cons t2 r3 =>
                cases h2 : hexInt t2 with
                | error e => simp [prontoDecodeToks, h0, h1, hfc, h2] at h
                | ok ni =>
                  cases r3 with
                  | nil => simp [prontoDecodeToks, h0, h1, hfc, h2] at h
                  | cons t3 rest =>
                    cases h3 : hexInt t3 with
                    | error e => simp [prontoDecodeToks, h0, h1, hfc, h2, h3] at h
                    | ok nr =>
                      cases h4 : rest.mapM hexInt with
                      | error e =>
                        have h4l : List.mapM.loop hexInt rest [] = Except.error e := h4
                        simp [prontoDecodeToks, h0, h1, hfc, h2, h3, h4l] at h
                      | ok durs =>
                        refine ⟨t0, t1, t2, t3, rest, rfl, ?_⟩
                        have h4l : List.mapM.loop hexInt rest [] = Except.ok durs := h4
                        have hfwd : prontoDecodeToks (t0 :: t1 :: t2 :: t3 :: rest) =
                            Except.ok ⟨1000000000000 / (241246 * fcode), ni, nr, durs⟩ := by
                          simp [prontoDecodeToks, h0, h1, hfc, h2, h3, h4l]
                        rw [hfwd] at h
                        injection h with h
                        subst h
                        exact h4
      · simp [prontoDecodeToks, h0, hty] at h

/-- Claim C3 counterexample: on the stream `0000 006D 0001 0000 000A` the
decoder's duration sequence is `[10]` — only the token at position 4
onward — while the claimed sequence, the hex parse of every token from
position 1 onward, is `[109, 1, 0, 10]`. -/
theorem pronto_durations_counterexample :
    (prontoDecodeToks c3toks).map DecodeOut.durations = Except.ok [10] ∧
    specClaimDurations c3toks = Except.ok [109, 1, 0, 10] ∧
    ([10] : List Nat) ≠ [109, 1, 0, 10] := by
  exact ⟨rfl, rfl, by decide⟩

/-- Claim C3 (amended): for every accepted token stream the duration
sequence is the hex parse of the tokens from position 4 onward — the four
header tokens are consumed destructively, not re-consumed — and the
decoder accepts any stream with four valid header tokens (type zero,
non-zero fcode) and arbitrarily many valid duration tokens: the duration
count is never validated against the derived pair count. -/
theorem pronto_durations_amended :
    (∀ toks d, prontoDecodeToks toks = Except.ok d →
      (toks.drop 4).mapM hexInt = Except.ok d.durations) ∧
    (∀ t0 t1 t2 t3 rest v ni nr durs,
      hexInt t0 = Except.ok 0 → hexInt t1 = Except.ok v → v ≠ 0 →
      hexInt t2 = Except.ok ni → hexInt t3 = Except.ok nr →
      rest.mapM hexInt = Except.ok durs →
      prontoDecodeToks (t0 :: t1 :: t2 :: t3 :: rest) =
        Except.ok ⟨1000000000000 / (241246 * v), ni, nr, durs⟩) := by
  constructor
  · intro toks d h
    obtain ⟨t0, t1, t2, t3, rest, rfl, hrest⟩ := prontoDecodeToks_ok_shape toks d h
    simpa using hrest
  · intro t0 t1 t2 t3 rest v ni nr durs h0 h1 hv h2 h3 h4
    have h4l : List.mapM.loop hexInt rest [] = Except.ok durs := h4
    simp [prontoDecodeToks, h0, h1, hv, h2, h3, h4l]

/-- Claim C3 witness: the amended statement instantiated on the stream
`0000 006D 0001 0000 000A`. -/
theorem pronto_durations_amended_witness :
    (c3toks.drop 4).mapM hexInt = Except.ok [10] ∧
    prontoDecodeToks c3toks = Except.ok ⟨1000000000000 / (241246 * 109), 1, 0, [10]⟩ :=
  ⟨pronto_durations_amended.1 c3toks ⟨1000000000000 / (241246 * 109), 1, 0, [10]⟩ rfl,
   pronto_durations_amended.2 ['0', '0', '0', '0'] ['0', '0', '6', 'D'] ['0', '0', '0', '1']
     ['0', '0', '0', '0'] [['0', '0', '0', 'A']] 109 1 0 [10]
     rfl rfl (by decide) rfl rfl rfl⟩

/-- Claim C2 counterexample: decoding `0000 006D 0022 0002` (fcode `006D`
= 109) produces carrier frequency 38028, but the claimed formula
`round(1000000 / (0.241246 × fcode))` evaluates to 38029 — the code
truncates (`int(...)`), it does not round. -/
theorem pronto_freq_counterexample :
    (commandInitToks c2toks).map Command.frequency = Except.ok 38028 ∧
    specRoundFreq 109 = 38029 ∧ (38028 : Nat) ≠ 38029 := by
  exact ⟨rfl, rfl, by decide⟩

/-- Claim C2 (amended): decoding a stream whose second token is `006D`
(109 decimal) produces carrier frequency exactly 38028 Hz, computed as
the truncation of `1000000 / (0.241246 × fcode)` — the floor
`10^12 / (241246 × 109)` in exact arithmetic — not as its rounding. -/
theorem pronto_freq_truncated :
    (commandInitToks c2toks).map Command.frequency =
      Except.ok (1000000000000 / (241246 * 109)) ∧
    1000000000000 / (241246 * 109) = 38028 := by
  exact ⟨rfl, rfl⟩

/-- Claim C9: for every token stream whose first token hex-parses to a
non-zero value, the decoder fails with the dedicated Pronto error
(`InvalidProntoException`, the kind the spec names
`UnsupportedProntoType`), and no `Command` object is ever produced. -/
theorem pronto_nonzero_type (t0 : Str) (rest : List Str) (v : Nat)
    (h1 : hexInt t0 = Except.ok v) (h2 : v ≠ 0) :
    prontoDecodeToks (t0 :: rest) = Except.error PyErr.invalidPronto ∧
    ∀ cmd : Command, commandInitToks (t0 :: rest) ≠ Except.ok cmd := by
  have hd : prontoDecodeToks (t0 :: rest) = Except.error PyErr.invalidPronto := by
    simp [prontoDecodeToks, h1, h2]
  refine ⟨hd, ?_⟩
  intro cmd
  simp [commandInitToks, hd, Except.map]

/-- Claim C9 witness: the stream `0001 006D` is rejected with the Pronto
error. -/
theorem pronto_nonzero_type_witness :
    hexInt ['0', '0', '0', '1'] = Except.ok 1 ∧
    prontoDecodeToks [['0', '0', '0', '1'], ['0', '0', '6', 'D']] =
      Except.error PyErr.invalidPronto :=
  ⟨rfl, (pronto_nonzero_type ['0', '0', '0', '1'] [['0', '0', '6', 'D']] 1 rfl
    (by decide)).1⟩

/-- Claim C8: looking up an absent command name makes `send` fail before
any request is built — the event trace is empty, so no network exchange
happens — but the exception is the builtin `KeyError` of the dictionary
lookup, not the `CommandNotFoundException` the code itself declares for
this purpose and never raises. -/
theorem send_unknown_name_keyerror :
    GCIRDevice_send tConst ⟨1, ['V']⟩ [] 1 1 ['o', 'k'] 1 =
      (⟨1, ['V']⟩, [], Except.error PyErr.keyError) ∧
    PyErr.keyError ≠ PyErr.commandNotFound := by
  exact ⟨rfl, by decide⟩

theorem runOps_sequence_no (t : Str → Option Str) (ops : List Op) :
    ∀ s : Session, (runOps t s ops).sequence_no = s.sequence_no + ops.countP isSendir := by
  induction ops with
  | nil => intro s; simp [runOps]
  | cons op rest ih =>
    intro s
    have hstep : ((runOp t s op).1).sequence_no =
        s.sequence_no + (if isSendir op then 1 else 0) := by
      cases op with
      | sendirOp m p cmd count =>
        cases htr : t (ir_string s.sequence_no m p cmd count) with
        | none => simp [runOp, sendirRun, isSendir, htr]
        | some a => simp [runOp, sendirRun, isSendir, htr]
      | getversionOp => simp [runOp, isSendir]
      | getserialOp m p => simp [runOp, isSendir]
      | setrelayOp m p onoff => simp [runOp, isSendir]
      | getrelayOp m p => simp [runOp, isSendir]
    have hfold : runOps t s (op :: rest) = runOps t ((runOp t s op).1) rest := rfl
    rw [hfold, ih, hstep, List.countP_cons]
    by_cases hs : isSendir op
    · simp [hs]
      omega
    · simp [hs]

/-- Claim C6: the transaction-sequence counter starts at 1 when a session
is created, and after any sequence of operations it equals 1 plus the
number of send-IR calls in that sequence — incremented exactly once per
send-IR call whatever the transport or the reply did (the counter update
precedes the exchange), never reset or decremented, and untouched by
getversion, getserial, setrelay and getrelay. -/
theorem transaction_sequence_invariant (t : Str → Option Str) (s0 : Session)
    (ops : List Op) (h : sessionInit t = some s0) :
    s0.sequence_no = 1 ∧
    (runOps t s0 ops).sequence_no = 1 + ops.countP isSendir := by
  have h1 : s0.sequence_no = 1 := by
    cases hv : t GETVERSION with
    | none => simp [sessionInit, hv] at h
    | some v =>
      simp [sessionInit, hv] at h
      rw [← h]
  exact ⟨h1, by rw [runOps_sequence_no t ops s0, h1, Nat.add_comm]⟩

/-- Claim C6 witness: a constant transport and a six-operation trace
containing two IR sends leave the counter at 3. -/
theorem transaction_sequence_invariant_witness :
    sessionInit tConst = some ⟨1, ['V']⟩ ∧
    ((⟨1, ['V']⟩ : Session).sequence_no = 1 ∧
      (runOps tConst ⟨1, ['V']⟩ opsW).sequence_no = 1 + opsW.countP isSendir) :=
  ⟨rfl, transaction_sequence_invariant tConst ⟨1, ['V']⟩ opsW rfl⟩

/-- Claim C7: `pulse` first runs the turn-on exchange; when turn-on
reports `false` the call returns `false` at once and its event trace is
exactly the single turn-on exchange — no turn-off exchange and no sleep;
when turn-on reports `true` the trace is the turn-on exchange, the
configured sleep, then the turn-off exchange, and the call returns the
turn-off result. -/
theorem pulse_behavior (t : Str → Option Str) (m p len : Nat) :
    ((setrelayRun t m p true).2 = Except.ok false →
      pulseRun t m p len =
        ([Event.exchange (relay_set_string m p true) (t (relay_set_string m p true))],
          Except.ok false)) ∧
    ((setrelayRun t m p true).2 = Except.ok true →
      pulseRun t m p len =
        ((setrelayRun t m p true).1 ++ Event.sleep len :: (setrelayRun t m p false).1,
          (setrelayRun t m p false).2)) := by
  have htr : (setrelayRun t m p true).1 =
      [Event.exchange (relay_set_string m p true) (t (relay_set_string m p true))] := by
    cases htc : t (relay_set_string m p true) <;> simp [setrelayRun, htc]
  constructor
  · intro h
    rcases hsr : setrelayRun t m p true with ⟨ev, r⟩
    rw [hsr] at h htr
    have hr : r = Except.ok false := h
    subst hr
    have hev : ev =
        [Event.exchange (relay_set_string m p true) (t (relay_set_string m p true))] := htr
    subst hev
    unfold pulseRun
    rw [hsr]
  · intro h
    rcases hsr : setrelayRun t m p true with ⟨ev, r⟩
    rw [hsr] at h
    have hr : r = Except.ok true := h
    subst hr
    unfold pulseRun
    rw [hsr]

/-- Claim C7 witness: against a transport whose answers never match, the
turn-on exchange reports `false` and `pulse` returns `false` with a
single-exchange trace. -/
theorem pulse_behavior_witness :
    (setrelayRun tFail 3 1 true).2 = Except.ok false ∧
    pulseRun tFail 3 1 1 =
      ([Event.exchange (relay_set_string 3 1 true) (some ['x'])], Except.ok false) :=
  ⟨rfl, (pulse_behavior tFail 3 1 1).1 rfl⟩
